import Mathlib

/-
Verification of the Agentic-SOC workflow orchestration engine.

Shallow embedding of:
  - src/app/orchestrator.py  (SOCOrchestrator: graph nodes, router, process_alert)
  - src/app/main.py          (ConnectionManager.broadcast, process_workflow,
                              websocket_endpoint, list_workflows)

The data model lives in app/context.py, which is not present under src/;
its shape is reconstructed from its uses in src/app/main.py,
src/app/orchestrator.py and src/agents/triage_agent.py, and from the spec
where the uses do not pin it down.  The Investigation, Decision and
Response agents are likewise absent from src/; they are modelled from the
spec's stage-executor contract (execute(state) -> result | raises
StageError; an executor must not mutate fields outside its own result
slot), as an abstract per-stage outcome `Except String Result`.
-/

namespace AgenticSOC

/-- Modelled from the spec: app/context.py (absent from src/) defines
`AlertStatus`.  The spec lists PENDING, one RUNNING status per stage,
COMPLETED, FAILED; src/agents/triage_agent.py uses TRIAGING, and
src/app/main.py and src/app/orchestrator.py use COMPLETED and FAILED. -/
inductive AlertStatus
  | pending
  | triaging
  | investigating
  | deciding
  | responding
  | completed
  | failed
deriving DecidableEq, Repr

/-- Serialized form of a status, as `status.value` in src/app/main.py. -/
def AlertStatus.value : AlertStatus → String
  | .pending => "pending"
  | .triaging => "triaging"
  | .investigating => "investigating"
  | .deciding => "deciding"
  | .responding => "responding"
  | .completed => "completed"
  | .failed => "failed"

/-- Verdict values, from the triage prompt in src/agents/triage_agent.py
and the `Verdict.TRUE_POSITIVE / FALSE_POSITIVE / BENIGN` uses in
src/app/main.py. -/
inductive Verdict
  | true_positive
  | false_positive
  | benign
  | suspicious
  | unknown
deriving DecidableEq, Repr

/-- Modelled from the spec: a priority level attached to a decision
(app/context.py is absent from src/; the exact constructors are not
claim-relevant, only equality between priorities is used). -/
inductive Priority
  | critical
  | high
  | medium
  | low
deriving DecidableEq, Repr

/-- Triage result fields used by src: `requires_investigation` drives the
router, `verdict`/`reasoning` come from the parsed LLM response in
src/agents/triage_agent.py. -/
structure TriageResult where
  verdict : Verdict
  requires_investigation : Bool
  reasoning : String
deriving DecidableEq, Repr

/-- Modelled from the spec: the Investigation stage result payload
(agents/investigation_agent.py is absent from src/; the payload content is
opaque to the orchestrator). -/
structure InvestigationResult where
  findings : String
deriving DecidableEq, Repr

/-- Decision result fields used by src/app/main.py: `final_verdict` and
`priority`, both optional (guarded by truthiness checks before `.value`). -/
structure DecisionResult where
  final_verdict : Option Verdict
  priority : Option Priority
deriving DecidableEq, Repr

/-- Modelled from the spec: the Response stage result payload
(agents/response_agent.py is absent from src/); src/app/main.py reads an
`actions` list from it. -/
structure ResponseResult where
  actions : List String
deriving DecidableEq, Repr

/-- The workflow state threaded through all stages (SOCWorkflowState in
app/context.py, reconstructed from its uses in src/). -/
structure SOCWorkflowState where
  workflow_id : String
  alert_id : String
  status : AlertStatus
  current_agent : Option String
  triage_result : Option TriageResult
  investigation_result : Option InvestigationResult
  decision_result : Option DecisionResult
  response_result : Option ResponseResult
  errors : List String
deriving DecidableEq, Repr

/-- Modelled from the spec: the submission path (src/app/main.py
`process_alert` endpoint) builds `SOCWorkflowState(alert=..., workflow_id=...)`
whose remaining fields default, per the spec, to status PENDING, empty
result slots and empty errors. -/
def initial_state (wid aid : String) : SOCWorkflowState :=
  { workflow_id := wid
    alert_id := aid
    status := .pending
    current_agent := none
    triage_result := none
    investigation_result := none
    decision_result := none
    response_result := none
    errors := [] }

/-- A snapshot of one stage's result, as attached to "completed" events by
the orchestrator nodes (`result_state.<slot>.model_dump()`). -/
inductive ResultSnapshot
  | triage (r : TriageResult)
  | investigation (r : InvestigationResult)
  | decision (r : DecisionResult)
  | response (r : ResponseResult)
deriving DecidableEq, Repr

/-- Payload passed to the orchestrator's event callback
(src/app/orchestrator.py): a stage name, a status tag, and optional
result / error / verdict / priority fields. -/
structure StageEvent where
  stage : String
  status : String
  result : Option ResultSnapshot := none
  error : Option String := none
  verdict : Option Verdict := none
  priority : Option Priority := none
deriving DecidableEq, Repr

/-- Behaviour of the four pluggable stage executors for one run: each
either succeeds with a result or fails.  Modelled from the spec's
stage-executor contract (execute(state) -> result | raises StageError;
must not mutate fields outside its own result slot); the orchestrator
nodes in src/app/orchestrator.py are written against exactly this
try/except boundary. -/
structure ExecutorBehavior where
  triage : Except String TriageResult
  investigation : Except String InvestigationResult
  decision : Except String DecisionResult
  response : Except String ResponseResult

/-- Embeds `SOCOrchestrator._triage_node`: set current_agent, emit a
"started" event, run the executor; on success store the triage result and
emit "completed" with a snapshot; on failure append "Triage error: ..." to
errors, set status FAILED and emit "failed". -/
def triage_node (ex : Except String TriageResult) (state : SOCWorkflowState) :
    SOCWorkflowState × List StageEvent :=
  let s := { state with current_agent := some "triage" }
  match ex with
  | .ok r =>
      ({ s with triage_result := some r },
       [{ stage := "triage", status := "started" },
        { stage := "triage", status := "completed", result := some (.triage r) }])
  | .error e =>
      ({ s with errors := s.errors ++ ["Triage error: " ++ e], status := .failed },
       [{ stage := "triage", status := "started" },
        { stage := "triage", status := "failed", error := some e }])

/-- Embeds `SOCOrchestrator._investigation_node`: like the triage node,
but a failure only appends "Investigation error: ..." to errors — it does
NOT set status FAILED ("Don't fail completely - continue to decision"). -/
def investigation_node (ex : Except String InvestigationResult)
    (state : SOCWorkflowState) : SOCWorkflowState × List StageEvent :=
  let s := { state with current_agent := some "investigation" }
  match ex with
  | .ok r =>
      ({ s with investigation_result := some r },
       [{ stage := "investigation", status := "started" },
        { stage := "investigation", status := "completed",
          result := some (.investigation r) }])
  | .error e =>
      ({ s with errors := s.errors ++ ["Investigation error: " ++ e] },
       [{ stage := "investigation", status := "started" },
        { stage := "investigation", status := "failed", error := some e }])

/-- Embeds `SOCOrchestrator._decision_node`: on failure append
"Decision error: ..." and set status FAILED. -/
def decision_node (ex : Except String DecisionResult)
    (state : SOCWorkflowState) : SOCWorkflowState × List StageEvent :=
  let s := { state with current_agent := some "decision" }
  match ex with
  | .ok r =>
      ({ s with decision_result := some r },
       [{ stage := "decision", status := "started" },
        { stage := "decision", status := "completed",
          result := some (.decision r) }])
  | .error e =>
      ({ s with errors := s.errors ++ ["Decision error: " ++ e], status := .failed },
       [{ stage := "decision", status := "started" },
        { stage := "decision", status := "failed", error := some e }])

/-- Embeds `SOCOrchestrator._response_node`.  On failure append
"Response error: ..." and set status FAILED (src).  On success the result
slot is stored (src); additionally the terminal transition
RUNNING(respond) --success--> COMPLETED is applied here.  Modelled from
the spec: no code under src/ ever assigns COMPLETED (the assignment lives
in agents/response_agent.py, absent from src/), and the spec's invariant
(b) says a status that already reached FAILED is terminal and never
changes, so COMPLETED is only set when the status is not already FAILED. -/
def response_node (ex : Except String ResponseResult)
    (state : SOCWorkflowState) : SOCWorkflowState × List StageEvent :=
  let s := { state with current_agent := some "response" }
  match ex with
  | .ok r =>
      ({ s with response_result := some r,
                status := if s.status = .failed then .failed else .completed },
       [{ stage := "response", status := "started" },
        { stage := "response", status := "completed",
          result := some (.response r) }])
  | .error e =>
      ({ s with errors := s.errors ++ ["Response error: " ++ e], status := .failed },
       [{ stage := "response", status := "started" },
        { stage := "response", status := "failed", error := some e }])

/-- Embeds `SOCOrchestrator._should_investigate`: if status is FAILED
return "decide"; else if a triage result exists and its
requires_investigation flag is true return "investigate"; else "decide". -/
def should_investigate (state : SOCWorkflowState) : String :=
  if state.status = .failed then "decide"
  else
    match state.triage_result with
    | some t => if t.requires_investigation then "investigate" else "decide"
    | none => "decide"

/-- Embeds `SOCOrchestrator.process_alert` running the graph built by
`_build_workflow`: entry point "triage"; conditional edge from "triage"
via `_should_investigate` to "investigate" or "decide"; unconditional
edges investigate -> decide -> respond -> END.  After the run the
orchestrator fires its event callback once more with stage "final",
status "completed" and the final verdict/priority (src lines 178-184).
The surrounding try/except in src never fires here: every node is total. -/
def process_alert (b : ExecutorBehavior) (state : SOCWorkflowState) :
    SOCWorkflowState × List StageEvent :=
  let p1 := triage_node b.triage state
  let p2 :=
    if should_investigate p1.1 = "investigate" then
      let q := investigation_node b.investigation p1.1
      (q.1, p1.2 ++ q.2)
    else p1
  let p3 :=
    let q := decision_node b.decision p2.1
    (q.1, p2.2 ++ q.2)
  let p4 :=
    let q := response_node b.response p3.1
    (q.1, p3.2 ++ q.2)
  let finalEvent : StageEvent :=
    { stage := "final", status := "completed"
      verdict := p4.1.decision_result.bind DecisionResult.final_verdict
      priority := p4.1.decision_result.bind DecisionResult.priority }
  (p4.1, p4.2 ++ [finalEvent])

/-- Claim C4: the router returns "investigate" exactly when a triage
result exists, the status is not FAILED and the requires_investigation
flag is true; in every other case it returns "decide"
(src/app/orchestrator.py `_should_investigate`). -/
theorem C4_router_policy (s : SOCWorkflowState) :
    (should_investigate s = "investigate" ↔
      s.status ≠ .failed ∧
        ∃ t, s.triage_result = some t ∧ t.requires_investigation = true) ∧
    (should_investigate s = "investigate" ∨ should_investigate s = "decide") := by
  unfold should_investigate
  by_cases hf : s.status = .failed
  · simp [hf]
  · cases ht : s.triage_result with
    | none => simp [hf, ht]
    | some t =>
        by_cases hr : t.requires_investigation
        · simp [hf, ht, hr]
        · simp [hf, ht, hr]

/-- Claim C4 witness: a state with a triage result that requires
investigation and a non-FAILED status is routed to "investigate". -/
theorem C4_router_policy_witness :
    should_investigate
      { initial_state "w" "a" with
        triage_result := some ⟨.suspicious, true, "r"⟩ } = "investigate" :=
  (C4_router_policy _).1.mpr
    ⟨by decide, ⟨.suspicious, true, "r"⟩, rfl, rfl⟩

/-- The four pipeline stages. -/
inductive Stage
  | triage
  | investigation
  | decision
  | response
deriving DecidableEq, Repr

/-- Stage name as it appears in the event payloads of
src/app/orchestrator.py. -/
def Stage.name : Stage → String
  | .triage => "triage"
  | .investigation => "investigation"
  | .decision => "decision"
  | .response => "response"

/-- Whether a stage's result slot is populated in a state. -/
def result_populated (s : SOCWorkflowState) : Stage → Bool
  | .triage => s.triage_result.isSome
  | .investigation => s.investigation_result.isSome
  | .decision => s.decision_result.isSome
  | .response => s.response_result.isSome

/-- Whether a stage's executor succeeds under a given behaviour. -/
def exec_succeeds (b : ExecutorBehavior) : Stage → Bool
  | .triage => match b.triage with | .ok _ => true | .error _ => false
  | .investigation => match b.investigation with | .ok _ => true | .error _ => false
  | .decision => match b.decision with | .ok _ => true | .error _ => false
  | .response => match b.response with | .ok _ => true | .error _ => false

/-- Whether a "started" event for a stage occurs in an event trace. -/
def started_emitted (evs : List StageEvent) (st : Stage) : Bool :=
  evs.any (fun ev => ev.stage == st.name && ev.status == "started")

/-- A concrete run in which only the Triage executor fails and every other
executor succeeds. -/
def triage_failing_behavior : ExecutorBehavior :=
  { triage := .error "llm timeout"
    investigation := .ok ⟨"findings"⟩
    decision := .ok ⟨some .false_positive, some .low⟩
    response := .ok ⟨["close ticket"]⟩ }

/-- Claim C1 counterexample: when the Triage executor fails, the final
status is FAILED, but the Decision and Response result slots are NOT
empty: `_should_investigate` routes a FAILED workflow to "decide"
("If triage failed, skip to decision"), and the graph edges
decide -> respond run both downstream stages, whose executors succeed. -/
theorem C1_counterexample :
    (process_alert triage_failing_behavior (initial_state "w" "a")).1.status
        = .failed ∧
    ¬ (process_alert triage_failing_behavior
        (initial_state "w" "a")).1.decision_result = none ∧
    ¬ (process_alert triage_failing_behavior
        (initial_state "w" "a")).1.response_result = none := by
  refine ⟨rfl, ?_, ?_⟩ <;> decide

/-- Claim C1 amended: when the Triage executor fails and the Decision and
Response executors succeed, the workflow ends with status FAILED, the
Investigation slot empty and exactly the single triage error entry, but
the Decision and Response stages still execute (the router sends FAILED
workflows to "decide"), so their result slots are populated. -/
theorem C1_triage_failure (wid aid e : String) (b : ExecutorBehavior)
    (d : DecisionResult) (r : ResponseResult)
    (ht : b.triage = .error e) (hd : b.decision = .ok d)
    (hr : b.response = .ok r) :
    (process_alert b (initial_state wid aid)).1.status = .failed ∧
    (process_alert b (initial_state wid aid)).1.investigation_result = none ∧
    (process_alert b (initial_state wid aid)).1.errors
        = ["Triage error: " ++ e] ∧
    (process_alert b (initial_state wid aid)).1.decision_result = some d ∧
    (process_alert b (initial_state wid aid)).1.response_result = some r := by
  obtain ⟨bt, bi, bd, br⟩ := b
  cases ht; cases hd; cases hr
  simp +decide [process_alert, triage_node, decision_node, response_node,
    should_investigate, initial_state]

/-- Claim C1 amended witness: the concrete triage-failing run reaches the
amended postcondition. -/
theorem C1_triage_failure_witness :
    (process_alert triage_failing_behavior (initial_state "w" "a")).1.errors
        = ["Triage error: llm timeout"] ∧
    (process_alert triage_failing_behavior
        (initial_state "w" "a")).1.decision_result
        = some ⟨some .false_positive, some .low⟩ :=
  ⟨(C1_triage_failure "w" "a" "llm timeout" triage_failing_behavior
      ⟨some .false_positive, some .low⟩ ⟨["close ticket"]⟩ rfl rfl rfl).2.2.1,
   (C1_triage_failure "w" "a" "llm timeout" triage_failing_behavior
      ⟨some .false_positive, some .low⟩ ⟨["close ticket"]⟩ rfl rfl rfl).2.2.2.1⟩

/-- Claim C3 counterexample: in the triage-failing run, a "started" event
for Triage is emitted but the Triage result slot stays empty, so
"populated if and only if started was emitted" is false. -/
theorem C3_counterexample :
    ¬ (result_populated
         (process_alert triage_failing_behavior (initial_state "w" "a")).1
         .triage
       = started_emitted
           (process_alert triage_failing_behavior (initial_state "w" "a")).2
           .triage) := by
  decide

/-- Claim C3 amended: a stage's result slot is populated only if that
stage's "started" event was emitted; and conversely, when the stage's
executor succeeds, an emitted "started" event implies the slot is
populated.  The two directions differ exactly on failed stages: a failing
stage emits "started" but leaves its slot empty. -/
theorem C3_slot_iff_started (wid aid : String) (b : ExecutorBehavior)
    (st : Stage) :
    (result_populated (process_alert b (initial_state wid aid)).1 st = true →
      started_emitted (process_alert b (initial_state wid aid)).2 st = true) ∧
    (started_emitted (process_alert b (initial_state wid aid)).2 st = true →
      exec_succeeds b st = true →
      result_populated (process_alert b (initial_state wid aid)).1 st = true) := by
  obtain ⟨bt, bi, bd, br⟩ := b
  rcases bt with et | ⟨v, ri, rs⟩
  · rcases bi with ei | fi <;> rcases bd with ed | dd <;>
      rcases br with er | rr <;> cases st <;>
      simp +decide [process_alert, triage_node, investigation_node,
        decision_node, response_node, should_investigate, initial_state,
        result_populated, started_emitted, exec_succeeds, Stage.name]
  · cases ri <;> rcases bi with ei | fi <;> rcases bd with ed | dd <;>
      rcases br with er | rr <;> cases st <;>
      simp +decide [process_alert, triage_node, investigation_node,
        decision_node, response_node, should_investigate, initial_state,
        result_populated, started_emitted, exec_succeeds, Stage.name]

/-- Claim C3 amended witness: in a fully successful run, the Triage slot
is populated and the Triage "started" event was emitted. -/
theorem C3_slot_iff_started_witness :
    started_emitted
      (process_alert ⟨.ok ⟨.benign, false, "ok"⟩, .ok ⟨"f"⟩,
        .ok ⟨none, none⟩, .ok ⟨[]⟩⟩ (initial_state "w" "a")).2 .triage = true ∧
    result_populated
      (process_alert ⟨.ok ⟨.benign, false, "ok"⟩, .ok ⟨"f"⟩,
        .ok ⟨none, none⟩, .ok ⟨[]⟩⟩ (initial_state "w" "a")).1 .triage = true :=
  ⟨by decide,
   (C3_slot_iff_started "w" "a" _ .triage).2 (by decide) (by decide)⟩

/-- Claim C5: when the Triage result requires investigation, the
Investigation executor fails, and the Decision and Response executors
succeed, the workflow still ends COMPLETED with the Decision and Response
slots populated, the Investigation slot empty, and exactly one
Investigation-related error entry (src/app/orchestrator.py
`_investigation_node` records the error without setting FAILED). -/
theorem C5_investigation_failure_nonfatal (wid aid e : String)
    (t : TriageResult) (d : DecisionResult) (r : ResponseResult)
    (hreq : t.requires_investigation = true) :
    (process_alert ⟨.ok t, .error e, .ok d, .ok r⟩
        (initial_state wid aid)).1.status = .completed ∧
    (process_alert ⟨.ok t, .error e, .ok d, .ok r⟩
        (initial_state wid aid)).1.decision_result = some d ∧
    (process_alert ⟨.ok t, .error e, .ok d, .ok r⟩
        (initial_state wid aid)).1.response_result = some r ∧
    (process_alert ⟨.ok t, .error e, .ok d, .ok r⟩
        (initial_state wid aid)).1.investigation_result = none ∧
    (process_alert ⟨.ok t, .error e, .ok d, .ok r⟩
        (initial_state wid aid)).1.errors
      = ["Investigation error: " ++ e] := by
  simp +decide [process_alert, triage_node, investigation_node,
    decision_node, response_node, should_investigate, initial_state, hreq]

/-- Claim C5 witness: a concrete run in which only the Investigation
executor fails ends COMPLETED with the single investigation error. -/
theorem C5_investigation_failure_nonfatal_witness :
    (process_alert ⟨.ok ⟨.suspicious, true, "r"⟩, .error "timeout",
        .ok ⟨some .true_positive, some .high⟩, .ok ⟨["isolate host"]⟩⟩
        (initial_state "w" "a")).1.status = .completed ∧
    (process_alert ⟨.ok ⟨.suspicious, true, "r"⟩, .error "timeout",
        .ok ⟨some .true_positive, some .high⟩, .ok ⟨["isolate host"]⟩⟩
        (initial_state "w" "a")).1.errors
      = ["Investigation error: timeout"] :=
  ⟨(C5_investigation_failure_nonfatal "w" "a" "timeout"
      ⟨.suspicious, true, "r"⟩ ⟨some .true_positive, some .high⟩
      ⟨["isolate host"]⟩ rfl).1,
   (C5_investigation_failure_nonfatal "w" "a" "timeout"
      ⟨.suspicious, true, "r"⟩ ⟨some .true_positive, some .high⟩
      ⟨["isolate host"]⟩ rfl).2.2.2.2⟩

/-- Claim C6: the orchestrator's process operation is a total function of
the executor behaviour (by construction it returns a state for every
behaviour, so no exception reaches the caller); every executor failure of
an entered stage is recorded in the returned errors list, and a failure
of any fatal stage (Triage, Decision, Response) forces final status
FAILED.  The Investigation stage is only entered when the router selects
"investigate". -/
theorem C6_errors_recorded_no_throw (wid aid : String) (b : ExecutorBehavior) :
    (∀ e, b.triage = .error e →
      ("Triage error: " ++ e) ∈ (process_alert b (initial_state wid aid)).1.errors) ∧
    (∀ e, b.investigation = .error e →
      should_investigate (triage_node b.triage (initial_state wid aid)).1
          = "investigate" →
      ("Investigation error: " ++ e)
          ∈ (process_alert b (initial_state wid aid)).1.errors) ∧
    (∀ e, b.decision = .error e →
      ("Decision error: " ++ e) ∈ (process_alert b (initial_state wid aid)).1.errors) ∧
    (∀ e, b.response = .error e →
      ("Response error: " ++ e) ∈ (process_alert b (initial_state wid aid)).1.errors) ∧
    (((∃ e, b.triage = .error e) ∨ (∃ e, b.decision = .error e) ∨
        (∃ e, b.response = .error e)) →
      (process_alert b (initial_state wid aid)).1.status = .failed) := by
  obtain ⟨bt, bi, bd, br⟩ := b
  rcases bt with et | ⟨v, ri, rs⟩
  · rcases bi with ei | fi <;> rcases bd with ed | dd <;>
      rcases br with er | rr <;>
      simp +decide [process_alert, triage_node, investigation_node,
        decision_node, response_node, should_investigate, initial_state]
  · cases ri <;> rcases bi with ei | fi <;> rcases bd with ed | dd <;>
      rcases br with er | rr <;>
      simp +decide [process_alert, triage_node, investigation_node,
        decision_node, response_node, should_investigate, initial_state]

/-- Claim C6 witness: in the concrete triage-failing run the triage error
is recorded and the final status is FAILED. -/
theorem C6_errors_recorded_no_throw_witness :
    ("Triage error: llm timeout")
        ∈ (process_alert triage_failing_behavior
            (initial_state "w" "a")).1.errors ∧
    (process_alert triage_failing_behavior
        (initial_state "w" "a")).1.status = .failed :=
  ⟨(C6_errors_recorded_no_throw "w" "a" triage_failing_behavior).1
      "llm timeout" rfl,
   (C6_errors_recorded_no_throw "w" "a" triage_failing_behavior).2.2.2.2
      (Or.inl ⟨"llm timeout", rfl⟩)⟩

/-- Claim C7: for every run from a freshly created state, if the final
status is FAILED the errors list is non-empty (every FAILED-setter in
src/app/orchestrator.py appends an error first), and if the final status
is COMPLETED every error entry is an Investigation entry (the only
non-fatal failure path). -/
theorem C7_failed_nonempty_completed_inv_only (wid aid : String)
    (b : ExecutorBehavior) :
    ((process_alert b (initial_state wid aid)).1.status = .failed →
      (process_alert b (initial_state wid aid)).1.errors ≠ []) ∧
    ((process_alert b (initial_state wid aid)).1.status = .completed →
      ∀ x ∈ (process_alert b (initial_state wid aid)).1.errors,
        ∃ m, x = "Investigation error: " ++ m) := by
  obtain ⟨bt, bi, bd, br⟩ := b
  rcases bt with et | ⟨v, ri, rs⟩
  · rcases bi with ei | fi <;> rcases bd with ed | dd <;>
      rcases br with er | rr <;>
      simp +decide [process_alert, triage_node, investigation_node,
        decision_node, response_node, should_investigate, initial_state]
  · cases ri <;> rcases bi with ei | fi <;> rcases bd with ed | dd <;>
      rcases br with er | rr <;>
      simp +decide [process_alert, triage_node, investigation_node,
        decision_node, response_node, should_investigate, initial_state]

/-- Claim C7 witness: the triage-failing run is FAILED with a non-empty
errors list. -/
theorem C7_failed_nonempty_completed_inv_only_witness :
    (process_alert triage_failing_behavior
        (initial_state "w" "a")).1.status = .failed ∧
    (process_alert triage_failing_behavior
        (initial_state "w" "a")).1.errors ≠ [] :=
  ⟨by decide,
   (C7_failed_nonempty_completed_inv_only "w" "a"
      triage_failing_behavior).1 (by decide)⟩

/-- A message broadcast to websocket observers (src/app/main.py): a
"type" tag plus the optional fields used by the status, progress and
final messages. -/
structure WsMessage where
  mtype : String
  stage : Option String := none
  status : Option String := none
  error : Option String := none
  verdict : Option Verdict := none
  priority : Option Priority := none
  errors : Option (List String) := none
deriving DecidableEq, Repr

/-- Embeds `_event_callback` in src/app/main.py: every queued orchestrator
event is normalized into a message whose "type" is "progress"
(`normalized = {"type": "progress"}; normalized.update(payload)` — no
payload carries a "type" key), keeping the stage/status/error fields.
The purely cosmetic UI fields (progress percentage, agent_status map,
message text) are presentation-only and not modelled. -/
def normalize_event (ev : StageEvent) : WsMessage :=
  { mtype := "progress"
    stage := some ev.stage
    status := some ev.status
    error := ev.error
    verdict := ev.verdict
    priority := ev.priority }

/-- Embeds `process_workflow` in src/app/main.py: broadcast an initial
"status" message, run the orchestrator, broadcast every queued normalized
event, then broadcast one "final" message carrying the final status value,
the verdict and priority when a decision result exists, and the full
errors list.  The except branch of src never fires here: the orchestrator
is total and broadcasting is modelled as message production. -/
def process_workflow (b : ExecutorBehavior) (state : SOCWorkflowState) :
    SOCWorkflowState × List WsMessage :=
  let p := process_alert b state
  let finalMsg : WsMessage :=
    { mtype := "final"
      status := some p.1.status.value
      verdict := p.1.decision_result.bind DecisionResult.final_verdict
      priority := p.1.decision_result.bind DecisionResult.priority
      errors := some p.1.errors }
  (p.1, { mtype := "status", status := some "processing" } ::
        (p.2.map normalize_event ++ [finalMsg]))

/-- Claim C2: for every run from a freshly created state, the broadcast
trace contains exactly one message of type "final"; it carries the status
actually reached, the verdict/priority derived from the decision result
when one exists, and the full errors list; and the status reached is
terminal (COMPLETED or FAILED). -/
theorem C2_single_final_event (wid aid : String) (b : ExecutorBehavior) :
    (process_workflow b (initial_state wid aid)).2.filter
        (fun m => m.mtype == "final")
      = [{ mtype := "final"
           status := some
             (process_workflow b (initial_state wid aid)).1.status.value
           verdict := (process_workflow b
             (initial_state wid aid)).1.decision_result.bind
               DecisionResult.final_verdict
           priority := (process_workflow b
             (initial_state wid aid)).1.decision_result.bind
               DecisionResult.priority
           errors := some
             (process_workflow b (initial_state wid aid)).1.errors }] ∧
    ((process_workflow b (initial_state wid aid)).1.status = .completed ∨
      (process_workflow b (initial_state wid aid)).1.status = .failed) := by
  have hmap : ∀ evs : List StageEvent,
      (evs.map normalize_event).filter (fun m => m.mtype == "final") = [] := by
    intro evs
    induction evs with
    | nil => rfl
    | cons h t ih => simp [normalize_event, ih]
  constructor
  · simp [process_workflow, List.filter_append, hmap]
  · obtain ⟨bt, bi, bd, br⟩ := b
    rcases bt with et | ⟨v, ri, rs⟩
    · rcases bi with ei | fi <;> rcases bd with ed | dd <;>
        rcases br with er | rr <;>
        simp +decide [process_workflow, process_alert, triage_node,
          investigation_node, decision_node, response_node,
          should_investigate, initial_state]
    · cases ri <;> rcases bi with ei | fi <;> rcases bd with ed | dd <;>
        rcases br with er | rr <;>
        simp +decide [process_workflow, process_alert, triage_node,
          investigation_node, decision_node, response_node,
          should_investigate, initial_state]

/-- Claim C2 has no hypothesis beyond its universally quantified inputs;
this instance fixes them concretely and extracts the terminal-status
disjunct for the triage-failing run. -/
theorem C2_single_final_event_witness :
    ((process_workflow triage_failing_behavior
        (initial_state "w" "a")).1.status = .completed ∨
      (process_workflow triage_failing_behavior
        (initial_state "w" "a")).1.status = .failed) :=
  (C2_single_final_event "w" "a" triage_failing_behavior).2

/-- Embeds `ConnectionManager.broadcast` in src/app/main.py: iterate over
the connections subscribed to a workflow_id and send the message to each;
a send that raises is swallowed (try/except pass) and iteration
continues.  Observers are identified by naturals; `fails` gives each
observer's delivery outcome for this publish; the returned list is the
sequence of successful deliveries in iteration order. -/
def broadcast : List Nat → (Nat → Bool) → WsMessage → List (Nat × WsMessage)
  | [], _, _ => []
  | ws :: rest, fails, msg =>
      if fails ws then broadcast rest fails msg
      else (ws, msg) :: broadcast rest fails msg

/-- Restriction of a delivery log to the observers other than `w`. -/
def deliveries_except (w : Nat) : List (Nat × WsMessage) → List (Nat × WsMessage)
  | [] => []
  | p :: rest =>
      if p.1 = w then deliveries_except w rest
      else p :: deliveries_except w rest

/-- Claim C8: every subscribed observer whose delivery does not fail
receives the published message, and the deliveries to all observers other
than a given one are identical under any two failure behaviours that
agree outside that observer — one observer's delivery failure neither
prevents nor alters delivery to any other observer. -/
theorem C8_observer_isolation (conns : List Nat) (fails fails2 : Nat → Bool)
    (msg : WsMessage) (w ws : Nat) :
    (ws ∈ conns → fails ws = false → (ws, msg) ∈ broadcast conns fails msg) ∧
    ((∀ x, x ≠ w → fails x = fails2 x) →
      deliveries_except w (broadcast conns fails msg)
        = deliveries_except w (broadcast conns fails2 msg)) := by
  constructor
  · intro hmem hok
    induction conns with
    | nil => cases hmem
    | cons c rest ih =>
        rcases List.mem_cons.mp hmem with hc | hc
        · subst hc
          simp [broadcast, hok]
        · by_cases hf : fails c <;> simp [broadcast, hf, ih hc]
  · intro hagree
    induction conns with
    | nil => rfl
    | cons c rest ih =>
        by_cases hc : c = w
        · subst hc
          cases h1 : fails c <;> cases h2 : fails2 c <;>
            simp [broadcast, h1, h2, deliveries_except, ih]
        · have hcc : fails c = fails2 c := hagree c hc
          cases h1 : fails c <;>
            simp [broadcast, h1, ← hcc, deliveries_except, hc, ih]

/-- Claim C8 witness: with observers 1 and 2 subscribed and observer 1's
delivery failing, observer 2 still receives the message. -/
theorem C8_observer_isolation_witness :
    (2, ({ mtype := "progress" } : WsMessage))
      ∈ broadcast [1, 2] (fun x => x == 1) { mtype := "progress" } :=
  (C8_observer_isolation [1, 2] (fun x => x == 1) (fun x => x == 1)
      { mtype := "progress" } 1 2).1 (by decide) (by decide)

/-- Registry lookup by workflow_id, as `workflows[workflow_id]` guarded by
`workflow_id in workflows` in src/app/main.py. -/
def reg_get : List (String × SOCWorkflowState) → String → Option SOCWorkflowState
  | [], _ => none
  | (k, v) :: rest, wid => if k = wid then some v else reg_get rest wid

/-- Embeds the connect-time behaviour of `websocket_endpoint` in
src/app/main.py: after accepting the connection, if the workflow_id is
already known to the registry, exactly one synthetic "status" message
reflecting the workflow's current status is sent to the new observer;
otherwise nothing is sent. -/
def connect_initial (reg : List (String × SOCWorkflowState)) (wid : String) :
    List WsMessage :=
  match reg_get reg wid with
  | some s =>
      [{ mtype := "status", status := some s.status.value }]
  | none => []

/-- An operation on the event-distribution layer: a broadcast of a message
to a workflow_id, or an observer connecting to a workflow_id. -/
inductive BrokerOp
  | publish (wid : String) (msg : WsMessage)
  | subscribe (wid : String) (obs : Nat)

/-- Whether an operation is a publish. -/
def BrokerOp.is_publish : BrokerOp → Bool
  | .publish _ _ => true
  | .subscribe _ _ => false

/-- Small-step delivery log of the broadcaster (ConnectionManager plus
websocket_endpoint in src/app/main.py): a publish delivers the message to
every currently subscribed observer of that workflow_id; a subscribe
first sends the connect-time synthetic status message (if any) to the new
observer and then adds it to the subscriber set.  Deliveries are recorded
as (observer, message) pairs in order. -/
def run_ops (reg : List (String × SOCWorkflowState)) :
    List BrokerOp → List (String × Nat) → List (Nat × WsMessage)
  | [], _ => []
  | .publish wid msg :: rest, conns =>
      ((conns.filter (fun c => c.1 = wid)).map (fun c => (c.2, msg)))
        ++ run_ops reg rest conns
  | .subscribe wid o :: rest, conns =>
      ((connect_initial reg wid).map (fun m => (o, m)))
        ++ run_ops reg rest ((wid, o) :: conns)

/-- The messages an observer receives out of a delivery log. -/
def received (o : Nat) : List (Nat × WsMessage) → List WsMessage
  | [] => []
  | p :: rest => if p.1 = o then p.2 :: received o rest else received o rest

/-- Receiving distributes over concatenation of delivery logs. -/
lemma received_append (o : Nat) (l1 l2 : List (Nat × WsMessage)) :
    received o (l1 ++ l2) = received o l1 ++ received o l2 := by
  induction l1 with
  | nil => rfl
  | cons p rest ih =>
      by_cases hp : p.1 = o <;> simp [received, hp, ih]

/-- A publish delivers nothing to an observer that is not subscribed. -/
lemma received_publish_unsubscribed (o : Nat) (m : WsMessage) (w : String)
    (conns : List (String × Nat)) (hfresh : ∀ c ∈ conns, c.2 ≠ o) :
    received o
        ((conns.filter (fun c => c.1 = w)).map (fun c => (c.2, m))) = [] := by
  induction conns with
  | nil => rfl
  | cons c cr ih =>
      have hc : c.2 ≠ o := hfresh c (List.mem_cons_self c cr)
      have hcr : ∀ x ∈ cr, x.2 ≠ o := fun x hx =>
        hfresh x (List.mem_cons_of_mem _ hx)
      by_cases hw : c.1 = w <;>
        simp [List.filter_cons, hw, received, hc, ih hcr]

/-- Claim C9: an observer that subscribes after a sequence of publishes
(and was not subscribed before) receives none of those historical
messages; it receives exactly one synthetic "status" message reflecting
the workflow's current status when the registry knows the workflow, and
nothing at all otherwise. -/
theorem C9_late_subscribe (reg : List (String × SOCWorkflowState))
    (wid : String) (o : Nat) (pubs : List BrokerOp)
    (conns : List (String × Nat))
    (hpubs : ∀ op ∈ pubs, op.is_publish = true)
    (hfresh : ∀ c ∈ conns, c.2 ≠ o) :
    received o (run_ops reg (pubs ++ [.subscribe wid o]) conns)
      = (match reg_get reg wid with
         | some s => [{ mtype := "status", status := some s.status.value }]
         | none => []) := by
  induction pubs generalizing conns with
  | nil =>
      cases hrg : reg_get reg wid <;>
        simp [run_ops, received, connect_initial, hrg]
  | cons op rest ih =>
      cases op with
      | publish w m =>
          have hrest : ∀ x ∈ rest, x.is_publish = true := fun x hx =>
            hpubs x (List.mem_cons_of_mem _ hx)
          calc received o (run_ops reg
                  ((BrokerOp.publish w m :: rest) ++ [.subscribe wid o]) conns)
              = received o
                  ((conns.filter (fun c => c.1 = w)).map (fun c => (c.2, m)))
                ++ received o (run_ops reg (rest ++ [.subscribe wid o]) conns) := by
                simp [run_ops, received_append]
            _ = received o (run_ops reg (rest ++ [.subscribe wid o]) conns) := by
                simp [received_publish_unsubscribed o m w conns hfresh]
            _ = _ := ih conns hrest hfresh
      | subscribe w obs2 =>
          have hop := hpubs _ (List.mem_cons_self _ rest)
          simp [BrokerOp.is_publish] at hop

/-- Claim C9 witness: a concrete history with one publish before the
subscribe — the late observer receives only the synthetic status message
of the COMPLETED workflow. -/
theorem C9_late_subscribe_witness :
    received 7 (run_ops
        [("w", { initial_state "w" "a" with status := .completed })]
        [.publish "w" { mtype := "progress" }, .subscribe "w" 7] [])
      = [{ mtype := "status", status := some "completed" }] :=
  C9_late_subscribe
    [("w", { initial_state "w" "a" with status := .completed })]
    "w" 7 [.publish "w" { mtype := "progress" }] []
    (by intro op hop
        simp at hop
        simp [hop, BrokerOp.is_publish])
    (by intro c hc
        cases hc)

/-- The read-only projection returned by the list endpoint
(WorkflowSummary in app/context.py, reconstructed from its construction
sites in src/app/main.py: verdict/priority come from the decision result
when it exists). -/
structure WorkflowSummary where
  workflow_id : String
  alert_id : String
  status : AlertStatus
  verdict : Option Verdict
  priority : Option Priority
  errors : List String
deriving DecidableEq, Repr

/-- The filter applied per entry by `list_workflows` in src/app/main.py:
each supplied filter must match (status equality; verdict/priority
require a decision result whose field equals the filter). -/
def matches_filters (fs : Option AlertStatus) (fv : Option Verdict)
    (fp : Option Priority) (s : SOCWorkflowState) : Bool :=
  (match fs with
   | none => true
   | some st => decide (s.status = st)) &&
  (match fv with
   | none => true
   | some v =>
       match s.decision_result with
       | none => false
       | some d => decide (d.final_verdict = some v)) &&
  (match fp with
   | none => true
   | some p =>
       match s.decision_result with
       | none => false
       | some d => decide (d.priority = some p))

/-- The summary built for one state by `list_workflows` in
src/app/main.py. -/
def summary_of (s : SOCWorkflowState) : WorkflowSummary :=
  { workflow_id := s.workflow_id
    alert_id := s.alert_id
    status := s.status
    verdict := s.decision_result.bind DecisionResult.final_verdict
    priority := s.decision_result.bind DecisionResult.priority
    errors := s.errors }

/-- Whether a returned summary satisfies the supplied filters. -/
def summary_matches (fs : Option AlertStatus) (fv : Option Verdict)
    (fp : Option Priority) (w : WorkflowSummary) : Bool :=
  (match fs with
   | none => true
   | some st => decide (w.status = st)) &&
  (match fv with
   | none => true
   | some v => decide (w.verdict = some v)) &&
  (match fp with
   | none => true
   | some p => decide (w.priority = some p))

/-- Loop of `list_workflows` in src/app/main.py: walk the registry
entries, skip non-matching ones, append the summary of a matching one,
and only AFTER appending compare the accumulated count against the limit
(`if len(filtered_workflows) >= limit: break`).  The accumulator is kept
reversed and restored on exit. -/
def list_workflows_go (fs : Option AlertStatus) (fv : Option Verdict)
    (fp : Option Priority) (limit : Int) :
    List SOCWorkflowState → List WorkflowSummary → List WorkflowSummary
  | [], acc => acc.reverse
  | s :: rest, acc =>
      if matches_filters fs fv fp s then
        let acc2 := summary_of s :: acc
        if (acc2.length : Int) ≥ limit then acc2.reverse
        else list_workflows_go fs fv fp limit rest acc2
      else list_workflows_go fs fv fp limit rest acc

/-- Embeds the `list_workflows` endpoint of src/app/main.py over the
registry's entries in iteration order. -/
def list_workflows (fs : Option AlertStatus) (fv : Option Verdict)
    (fp : Option Priority) (limit : Int)
    (states : List SOCWorkflowState) : List WorkflowSummary :=
  list_workflows_go fs fv fp limit states []

/-- A state passing the filters yields a summary satisfying them. -/
lemma summary_of_matches (fs : Option AlertStatus) (fv : Option Verdict)
    (fp : Option Priority) (s : SOCWorkflowState)
    (h : matches_filters fs fv fp s = true) :
    summary_matches fs fv fp (summary_of s) = true := by
  cases fs <;> cases fv <;> cases fp <;> cases hd : s.decision_result <;>
    simp_all [matches_filters, summary_matches, summary_of]

/-- When fewer than `limit` summaries are accumulated, the loop keeps the
total count at or below `limit`. -/
lemma list_workflows_go_length_le (fs : Option AlertStatus)
    (fv : Option Verdict) (fp : Option Priority) (limit : Int)
    (states : List SOCWorkflowState) :
    ∀ acc : List WorkflowSummary, (acc.length : Int) < limit →
      ((list_workflows_go fs fv fp limit states acc).length : Int) ≤ limit := by
  induction states with
  | nil =>
      intro acc h
      simpa [list_workflows_go] using h.le
  | cons s rest ih =>
      intro acc h
      by_cases hm : matches_filters fs fv fp s = true
      · simp only [list_workflows_go, hm, if_true]
        by_cases h2 : ((summary_of s :: acc).length : Int) ≥ limit
        · simp only [h2, if_true, List.length_reverse]
          simp only [List.length_cons] at *
          push_cast at *
          omega
        · simp only [h2, if_false]
          refine ih _ ?_
          simp only [List.length_cons] at *
          push_cast at *
          omega
      · simp only [list_workflows_go, hm, if_false]
        exact ih acc h

/-- Every summary the loop returns satisfies the filters, provided every
already-accumulated summary does. -/
lemma list_workflows_go_all_match (fs : Option AlertStatus)
    (fv : Option Verdict) (fp : Option Priority) (limit : Int)
    (states : List SOCWorkflowState) :
    ∀ acc : List WorkflowSummary,
      (∀ w ∈ acc, summary_matches fs fv fp w = true) →
      ∀ w ∈ list_workflows_go fs fv fp limit states acc,
        summary_matches fs fv fp w = true := by
  induction states with
  | nil =>
      intro acc hacc w hw
      simp only [list_workflows_go, List.mem_reverse] at hw
      exact hacc w hw
  | cons s rest ih =>
      intro acc hacc w hw
      by_cases hm : matches_filters fs fv fp s = true
      · have hacc2 : ∀ x ∈ summary_of s :: acc,
            summary_matches fs fv fp x = true := by
          intro x hx
          rcases List.mem_cons.mp hx with rfl | hx'
          · exact summary_of_matches fs fv fp s hm
          · exact hacc x hx'
        simp only [list_workflows_go, hm, if_true] at hw
        by_cases h2 : ((summary_of s :: acc).length : Int) ≥ limit
        · simp only [h2, if_true, List.mem_reverse] at hw
          exact hacc2 w hw
        · simp only [h2, if_false] at hw
          exact ih _ hacc2 w hw
      · simp only [list_workflows_go, hm, if_false] at hw
        exact ih acc hacc w hw

/-- Claim C10: with limit ≤ 0 and at least one matching entry, the list
endpoint still returns exactly one summary — the limit check
`len(filtered_workflows) >= limit` runs only after a summary was
appended; with limit ≥ 1 it returns at most `limit` summaries; and every
returned summary satisfies all supplied filters. -/
theorem C10_list_limit_behaviour (states : List SOCWorkflowState)
    (fs : Option AlertStatus) (fv : Option Verdict) (fp : Option Priority)
    (limit : Int) :
    (limit ≤ 0 → (∃ s ∈ states, matches_filters fs fv fp s = true) →
      (list_workflows fs fv fp limit states).length = 1) ∧
    (1 ≤ limit →
      ((list_workflows fs fv fp limit states).length : Int) ≤ limit) ∧
    (∀ w ∈ list_workflows fs fv fp limit states,
      summary_matches fs fv fp w = true) := by
  refine ⟨?_, ?_, ?_⟩
  · intro hlim hex
    induction states with
    | nil =>
        rcases hex with ⟨s, hs, _⟩
        cases hs
    | cons s rest ih =>
        by_cases hm : matches_filters fs fv fp s = true
        · have h1 : limit ≤ 1 := by omega
          simp [list_workflows, list_workflows_go, hm, h1]
        · rcases hex with ⟨t, ht, htm⟩
          rcases List.mem_cons.mp ht with rfl | ht'
          · exact absurd htm hm
          · have hres := ih ⟨t, ht', htm⟩
            simpa [list_workflows, list_workflows_go, hm] using hres
  · intro hlim
    exact list_workflows_go_length_le fs fv fp limit states [] (by simpa using hlim)
  · exact list_workflows_go_all_match fs fv fp limit states []
      (by intro w hw; cases hw)

/-- Claim C10 witness: one COMPLETED workflow in the registry, filtered
on COMPLETED with limit 0, still yields exactly one summary. -/
theorem C10_list_limit_behaviour_witness :
    (list_workflows (some .completed) none none 0
        [{ initial_state "w" "a" with status := .completed }]).length = 1 :=
  (C10_list_limit_behaviour
      [{ initial_state "w" "a" with status := .completed }]
      (some .completed) none none 0).1 (by decide)
    ⟨{ initial_state "w" "a" with status := .completed },
      List.mem_cons_self _ _, by decide⟩

end AgenticSOC
